import Mathlib

-- Verification development for the AajKyaHai Astro API (src/main.py).
-- The classifier works on exact rationals (ℚ) in place of Python floats; Python's
-- float `%` with a positive divisor and float `//` are modelled by the mathematical
-- non-negative modulus and by Int.floor, which is exactly the semantics the source
-- relies on.  Dates, times and strings are modelled executably over Int / Nat / Char.

namespace AstroApi

-- ---------------------------------------------------------------------------
-- Static label tables (src/main.py lines 36-74)
-- ---------------------------------------------------------------------------

def SIGNS : List (String × String) :=
  [("मेष", "Aries"),
   ("वृषभ", "Taurus"),
   ("मिथुन", "Gemini"),
   ("कर्क", "Cancer"),
   ("सिंह", "Leo"),
   ("कन्या", "Virgo"),
   ("तुला", "Libra"),
   ("वृश्चिक", "Scorpio"),
   ("धनु", "Sagittarius"),
   ("मकर", "Capricorn"),
   ("कुंभ", "Aquarius"),
   ("मीन", "Pisces")]

def NAKSHATRAS : List (String × String) :=
  [("अश्विनी", "Ashwini"), ("भरणी", "Bharani"), ("कृत्तिका", "Krittika"),
   ("रोहिणी", "Rohini"), ("मृगशिरा", "Mrigashira"), ("आर्द्रा", "Ardra"),
   ("पुनर्वसु", "Punarvasu"), ("पुष्य", "Pushya"), ("आश्लेषा", "Ashlesha"),
   ("मघा", "Magha"), ("पूर्व फाल्गुनी", "Purva Phalguni"),
   ("उत्तर फाल्गुनी", "Uttara Phalguni"), ("हस्त", "Hasta"),
   ("चित्रा", "Chitra"), ("स्वाती", "Swati"), ("विशाखा", "Vishakha"),
   ("अनुराधा", "Anuradha"), ("ज्येष्ठा", "Jyeshtha"),
   ("मूल", "Mula"), ("पूर्वाषाढ़ा", "Purva Ashadha"),
   ("उत्तराषाढ़ा", "Uttara Ashadha"), ("श्रवण", "Shravana"),
   ("धनिष्ठा", "Dhanishta"), ("शतभिषा", "Shatabhisha"),
   ("पूर्व भाद्रपद", "Purva Bhadrapada"),
   ("उत्तर भाद्रपद", "Uttara Bhadrapada"),
   ("रेवती", "Revati")]

def TITHIS : List (String × String) :=
  [("प्रतिपदा", "Pratipada"), ("द्वितीया", "Dwitiya"), ("तृतीया", "Tritiya"),
   ("चतुर्थी", "Chaturthi"), ("पंचमी", "Panchami"), ("षष्ठी", "Shashthi"),
   ("सप्तमी", "Saptami"), ("अष्टमी", "Ashtami"), ("नवमी", "Navami"),
   ("दशमी", "Dashami"), ("एकादशी", "Ekadashi"), ("द्वादशी", "Dwadashi"),
   ("त्रयोदशी", "Trayodashi"), ("चतुर्दशी", "Chaturdashi"),
   ("पूर्णिमा", "Purnima")]

-- ---------------------------------------------------------------------------
-- Calendrical classifier (src/main.py lines 79-92)
-- ---------------------------------------------------------------------------

-- Python `lon // 30` on floats floors toward negative infinity and `%` on ints
-- returns a non-negative remainder for a positive modulus; both are modelled exactly.

def zodiacIndex (lon : ℚ) : ℕ := (⌊lon / 30⌋ % 12).toNat

def zodiac_from_longitude (lon : ℚ) : String × String :=
  SIGNS.getD (zodiacIndex lon) ("", "")

def nakshatraIndex (lon : ℚ) : ℕ := (⌊lon / (360 / 27)⌋ % 27).toNat

def nakshatra_from_longitude (lon : ℚ) : String × String :=
  NAKSHATRAS.getD (nakshatraIndex lon) ("", "")

-- Python float `x % 360.0` for any float x yields the representative of x modulo 360
-- lying in the interval from 0 (inclusive) to 360 (exclusive).
def mod360 (x : ℚ) : ℚ := x - 360 * ⌊x / 360⌋

def tithiDiff (sun_lon moon_lon : ℚ) : ℚ := mod360 (moon_lon - sun_lon)

-- Python `int(diff // 12.0)`; diff is non-negative, so int() of the floored float is
-- exactly the mathematical floor, represented as a natural number.
def tithiNo (sun_lon moon_lon : ℚ) : ℕ := (⌊tithiDiff sun_lon moon_lon / 12⌋).toNat

def tithi_from_longitudes (sun_lon moon_lon : ℚ) : String × String :=
  let paksha_hi : String := if tithiNo sun_lon moon_lon < 15 then "शुक्ल" else "कृष्ण"
  let tithi := TITHIS.getD (tithiNo sun_lon moon_lon % 15) ("", "")
  (paksha_hi ++ " " ++ tithi.1, paksha_hi ++ " " ++ tithi.2)

-- ---------------------------------------------------------------------------
-- Time normalizer (src/main.py lines 119-133)
-- ---------------------------------------------------------------------------

structure Date where
  year : Int
  month : Int
  day : Int
deriving DecidableEq

def isLeap (y : Int) : Bool := y % 4 == 0 && (y % 100 != 0 || y % 400 == 0)

def daysInMonth (y m : Int) : Int :=
  if m == 2 then (if isLeap y then 29 else 28)
  else if m == 4 || m == 6 || m == 9 || m == 11 then 30
  else 31

-- Digit-string parsing for datetime.strptime with format %Y-%m-%d: the date string is
-- split on the dash; %Y takes exactly four digits, %m and %d one or two digits, and
-- the resulting fields must denote an existing proleptic-Gregorian calendar date
-- within datetime's supported year range.

def digitsToNat (cs : List Char) : Option ℕ :=
  if cs.isEmpty then none
  else if cs.all Char.isDigit then
    some (cs.foldl (fun a c => 10 * a + (c.toNat - 48)) 0)
  else none

def splitDash : List Char → List (List Char)
  | [] => [[]]
  | c :: rest =>
    let r := splitDash rest
    if c == '-' then [] :: r
    else
      match r with
      | [] => [[c]]
      | g :: gs => (c :: g) :: gs

def validDate (y m d : Int) : Bool :=
  decide (1 ≤ y) && decide (y ≤ 9999) && decide (1 ≤ m) && decide (m ≤ 12) &&
    decide (1 ≤ d) && decide (d ≤ daysInMonth y m)

def parseDate (s : String) : Option Date :=
  match splitDash s.toList with
  | [ys, ms, ds] =>
    if ys.length == 4 && decide (ms.length ≤ 2) && decide (ds.length ≤ 2) then
      match digitsToNat ys, digitsToNat ms, digitsToNat ds with
      | some y, some m, some d =>
        if validDate y m d then some ⟨y, m, d⟩ else none
      | _, _, _ => none
    else none
  | _ => none

-- Proleptic-Gregorian day count from 1970-01-01 and its inverse, the standard
-- era-based civil-calendar conversion used to model the datetime value arithmetic
-- (Lean's Int `/` and `%` are floor division and non-negative remainder).

def daysFromCivil (y m d : Int) : Int :=
  let yy := if m ≤ 2 then y - 1 else y
  let era := yy / 400
  let yoe := yy - era * 400
  let mp := if m > 2 then m - 3 else m + 9
  let doy := (153 * mp + 2) / 5 + d - 1
  let doe := yoe * 365 + yoe / 4 - yoe / 100 + doy
  era * 146097 + doe - 719468

def civilFromDays (z0 : Int) : Int × Int × Int :=
  let z := z0 + 719468
  let era := z / 146097
  let doe := z - era * 146097
  let yoe := (doe - doe / 1460 + doe / 36524 - doe / 146096) / 365
  let y := yoe + era * 400
  let doy := doe - (365 * yoe + yoe / 4 - yoe / 100)
  let mp := (5 * doy + 2) / 153
  let d := doy - (153 * mp + 2) / 5 + 1
  let m := if mp < 10 then mp + 3 else mp - 9
  (if m ≤ 2 then y + 1 else y, m, d)

structure DateTime where
  year : Int
  month : Int
  day : Int
  hour : Int
  minute : Int
  second : Int
deriving DecidableEq

-- A timezone is modelled as its UTC offset in whole minutes as a function of the
-- civil date, which captures the zone's fixed offset together with any
-- daylight-saving adjustment in force on that date.

-- Absolute minute count of the anchor instant: midnight of the civil date
-- (datetime.strptime), plus the timedelta of exactly 6 hours, localized to the zone
-- and converted to UTC by subtracting the zone's offset for that date.
def anchorAbsMin (d : Date) (offsetFn : Date → Int) : Int :=
  daysFromCivil d.year d.month d.day * 1440 + 6 * 60 - offsetFn d

-- Calendar fields of an absolute minute count, as dt_utc exposes them.
def utcFields (n : Int) : DateTime :=
  let c := civilFromDays (n / 1440)
  ⟨c.1, c.2.1, c.2.2, (n % 1440) / 60, (n % 1440) % 60, 0⟩

def anchorUTC (d : Date) (offsetFn : Date → Int) : DateTime :=
  utcFields (anchorAbsMin d offsetFn)

-- Fractional-hour argument passed to swe.julday: hour + minute/60 + second/3600.
def fracHour (u : DateTime) : ℚ :=
  (u.hour : ℚ) + (u.minute : ℚ) / 60 + (u.second : ℚ) / 3600

/-- Modelled from the spec: the external ephemeris collaborator's time scale
(swe.julday), a Julian-day-like continuous day count whose integer part corresponds
to the UTC calendar date and whose fractional part is the fractional-hour input
divided by 24. -/
def julday (y m d : Int) (h : ℚ) : ℚ := (daysFromCivil y m d : ℚ) + h / 24

-- The ephemeris-time value the endpoint computes for a parsed date and zone offset.
def normalize (d : Date) (offsetFn : Date → Int) : ℚ :=
  let u := anchorUTC d offsetFn
  julday u.year u.month u.day (fracHour u)

/-- Modelled from the spec: the pytz entry for Asia/Kolkata, a fixed UTC offset of
+05:30 (330 minutes) with no daylight-saving rule. -/
def kolkataOffset : Date → Int := fun _ => 330

/-- Modelled from the spec: the external IANA timezone database consulted by
pytz.timezone, mapping a recognized identifier to its offset rule and recognizing
neither "Mars/Phobos" nor any other unlisted name. -/
def pytzDB : String → Option (Date → Int) :=
  fun tz =>
    if tz = "Asia/Kolkata" then some kolkataOffset
    else if tz = "UTC" then some (fun _ => 0)
    else none

-- ---------------------------------------------------------------------------
-- The /astro endpoint (src/main.py lines 104-168)
-- ---------------------------------------------------------------------------

inductive AstroError where
  | InvalidDateFormat : AstroError
  | UnknownTimeZone : AstroError
deriving DecidableEq

structure Response where
  date : String
  timezone : String
  sun_longitude : ℚ
  sun_sign_hi : String
  sun_sign_en : String
  moon_longitude : ℚ
  moon_sign_hi : String
  moon_sign_en : String
  tithi_hi : String
  tithi_en : String
  nakshatra_hi : String
  nakshatra_en : String
deriving DecidableEq

-- Python round(x, 6): round half to even at six decimal digits.
def round6 (x : ℚ) : ℚ :=
  let n := ⌊x * 1000000⌋
  let f := x * 1000000 - (n : ℚ)
  let r : Int :=
    if f < 1 / 2 then n
    else if 1 / 2 < f then n + 1
    else if n % 2 = 0 then n else n + 1
  (r : ℚ) / 1000000

-- The endpoint: pytz.timezone(tz) runs first and raises UnknownTimeZoneError on an
-- unrecognized identifier; datetime.strptime raises ValueError (InvalidDateFormat)
-- on a malformed or impossible date; the ephemeris collaborator is queried twice on
-- the same Julian day; lat and lon come from the query string but are never read.
def astro (db : String → Option (Date → Int)) (ephSun ephMoon : ℚ → ℚ)
    (date tz : String) (lat lon : ℚ) : Except AstroError Response :=
  match db tz with
  | none => Except.error AstroError.UnknownTimeZone
  | some offsetFn =>
    match parseDate date with
    | none => Except.error AstroError.InvalidDateFormat
    | some d =>
      let jd := normalize d offsetFn
      let sun_lon := ephSun jd
      let moon_lon := ephMoon jd
      Except.ok
        { date := date
          timezone := tz
          sun_longitude := round6 sun_lon
          sun_sign_hi := (zodiac_from_longitude sun_lon).1
          sun_sign_en := (zodiac_from_longitude sun_lon).2
          moon_longitude := round6 moon_lon
          moon_sign_hi := (zodiac_from_longitude moon_lon).1
          moon_sign_en := (zodiac_from_longitude moon_lon).2
          tithi_hi := (tithi_from_longitudes sun_lon moon_lon).1
          tithi_en := (tithi_from_longitudes sun_lon moon_lon).2
          nakshatra_hi := (nakshatra_from_longitude moon_lon).1
          nakshatra_en := (nakshatra_from_longitude moon_lon).2 }

-- ---------------------------------------------------------------------------
-- Definitions written from the spec's words, for refinement comparisons only
-- ---------------------------------------------------------------------------

/-- Separation formula exactly as the spec words it: ((moonLon - sunLon) mod 360
+ 360) mod 360, with mod the non-negative mathematical modulus. -/
def specSeparation (sunLon moonLon : ℚ) : ℚ :=
  mod360 (mod360 (moonLon - sunLon) + 360)

/-- Transliterated tithi label as the spec describes it: the paksha and the base name
both in transliteration. -/
def specTithiTranslit (sunLon moonLon : ℚ) : String :=
  (if tithiNo sunLon moonLon < 15 then "Shukla" else "Krishna") ++ " " ++
    (TITHIS.getD (tithiNo sunLon moonLon % 15) ("", "")).2

/-- Anchor instant exactly as the spec words it: midnight of the civil date on the
absolute-minute timeline, plus exactly 6 hours, with the timezone's offset for that
date subtracted to reach UTC. -/
def specAnchorAbsMin (d : Date) (offsetFn : Date → Int) : Int :=
  (daysFromCivil d.year d.month d.day * 1440 + 360) - offsetFn d

-- Sample run of the endpoint used to instantiate hypotheses of the request-level
-- theorems at concrete inputs.
def sampleResponse : Response :=
  (astro pytzDB (fun _ => 10) (fun _ => 50) "2026-02-06" "Asia/Kolkata" 0 0).toOption.getD
    { date := "", timezone := "", sun_longitude := 0, sun_sign_hi := "",
      sun_sign_en := "", moon_longitude := 0, moon_sign_hi := "", moon_sign_en := "",
      tithi_hi := "", tithi_en := "", nakshatra_hi := "", nakshatra_en := "" }

-- ---------------------------------------------------------------------------
-- Helper lemmas
-- ---------------------------------------------------------------------------

theorem getD_mem_of_lt {α : Type} (l : List α) (i : ℕ) (d : α) (h : i < l.length) :
    l.getD i d ∈ l := by
  induction l generalizing i with
  | nil => exact absurd h (by simp)
  | cons a t ih =>
    cases i with
    | zero => simp [List.getD_cons_zero]
    | succ n =>
      simp only [List.getD_cons_succ]
      exact List.mem_cons_of_mem a (ih n (by simpa using h))

theorem mod360_nonneg (x : ℚ) : 0 ≤ mod360 x := by
  rw [mod360]
  have h := Int.floor_le (x / 360)
  have h2 : (360 : ℚ) * ⌊x / 360⌋ ≤ 360 * (x / 360) :=
    mul_le_mul_of_nonneg_left h (by norm_num)
  have h3 : (360 : ℚ) * (x / 360) = x := by ring
  linarith

theorem mod360_lt (x : ℚ) : mod360 x < 360 := by
  rw [mod360]
  have h := Int.lt_floor_add_one (x / 360)
  have h2 : (360 : ℚ) * (x / 360) < 360 * (⌊x / 360⌋ + 1) :=
    mul_lt_mul_of_pos_left h (by norm_num)
  have h3 : (360 : ℚ) * (x / 360) = x := by ring
  linarith

theorem mod360_eq_self {x : ℚ} (h1 : 0 ≤ x) (h2 : x < 360) : mod360 x = x := by
  rw [mod360]
  have hf : ⌊x / 360⌋ = 0 := by
    rw [Int.floor_eq_zero_iff]
    refine ⟨div_nonneg h1 (by norm_num), ?_⟩
    rw [div_lt_one (by norm_num : (0 : ℚ) < 360)]
    exact h2
  rw [hf]
  push_cast
  ring

theorem mod360_add_int_mul (x : ℚ) (k : ℤ) : mod360 (x + 360 * k) = mod360 x := by
  rw [mod360, mod360]
  have h : (x + 360 * k) / 360 = x / 360 + (k : ℚ) := by ring
  rw [h, Int.floor_add_int]
  push_cast
  ring

theorem tithiDiff_nonneg (s m : ℚ) : 0 ≤ tithiDiff s m := mod360_nonneg _

theorem tithiDiff_lt_360 (s m : ℚ) : tithiDiff s m < 360 := mod360_lt _

theorem tithiDiff_eq_specSeparation (s m : ℚ) : tithiDiff s m = specSeparation s m := by
  rw [specSeparation, tithiDiff]
  have h : mod360 (m - s) + 360 = mod360 (m - s) + 360 * ((1 : ℤ) : ℚ) := by
    push_cast
    ring
  rw [h, mod360_add_int_mul]
  exact (mod360_eq_self (mod360_nonneg _) (mod360_lt _)).symm

theorem tithiNo_lt_30 (s m : ℚ) : tithiNo s m < 30 := by
  have h1 := tithiDiff_nonneg s m
  have h2 := tithiDiff_lt_360 s m
  rw [tithiNo]
  have hq : tithiDiff s m / 12 < 30 := by
    rw [div_lt_iff (by norm_num : (0 : ℚ) < 12)]
    linarith
  have hlt : ⌊tithiDiff s m / 12⌋ < 30 := Int.floor_lt.mpr (by push_cast; exact hq)
  have hge : 0 ≤ ⌊tithiDiff s m / 12⌋ :=
    Int.floor_nonneg.mpr (div_nonneg h1 (by norm_num))
  omega

theorem tithiNo_lt_15_iff (s m : ℚ) : tithiNo s m < 15 ↔ tithiDiff s m < 180 := by
  have hge : 0 ≤ ⌊tithiDiff s m / 12⌋ :=
    Int.floor_nonneg.mpr (div_nonneg (tithiDiff_nonneg s m) (by norm_num))
  rw [tithiNo]
  constructor
  · intro h
    have hf : ⌊tithiDiff s m / 12⌋ < 15 := by omega
    have hq := Int.floor_lt.mp hf
    push_cast at hq
    rw [div_lt_iff (by norm_num : (0 : ℚ) < 12)] at hq
    linarith
  · intro h
    have hq : tithiDiff s m / 12 < 15 := by
      rw [div_lt_iff (by norm_num : (0 : ℚ) < 12)]
      linarith
    have hf : ⌊tithiDiff s m / 12⌋ < 15 := Int.floor_lt.mpr (by push_cast; exact hq)
    omega

theorem tithiDiff_self (x : ℚ) : tithiDiff x x = 0 := by
  rw [tithiDiff, sub_self]
  exact mod360_eq_self le_rfl (by norm_num)

theorem tithiDiff_add_of {c : ℚ} (x : ℚ) (h1 : 0 ≤ c) (h2 : c < 360) :
    tithiDiff x (x + c) = c := by
  rw [tithiDiff]
  have h : x + c - x = c := by ring
  rw [h]
  exact mod360_eq_self h1 h2

theorem tithiNo_self (x : ℚ) : tithiNo x x = 0 := by
  rw [tithiNo, tithiDiff_self]
  norm_num

theorem tithi_congr {s1 m1 s2 m2 : ℚ} (h : tithiDiff s1 m1 = tithiDiff s2 m2) :
    tithi_from_longitudes s1 m1 = tithi_from_longitudes s2 m2 := by
  unfold tithi_from_longitudes tithiNo
  rw [h]

theorem tithiDiff_sun_shift (s m : ℚ) : tithiDiff (s + 360) m = tithiDiff s m := by
  rw [tithiDiff, tithiDiff]
  have h : m - (s + 360) = (m - s) + 360 * ((-1 : ℤ) : ℚ) := by
    push_cast
    ring
  rw [h, mod360_add_int_mul]

theorem tithiDiff_moon_shift (s m : ℚ) : tithiDiff s (m + 360) = tithiDiff s m := by
  rw [tithiDiff, tithiDiff]
  have h : m + 360 - s = (m - s) + 360 * ((1 : ℤ) : ℚ) := by
    push_cast
    ring
  rw [h, mod360_add_int_mul]

theorem zodiacIndex_lt (lon : ℚ) : zodiacIndex lon < 12 := by
  rw [zodiacIndex]
  have h1 : 0 ≤ ⌊lon / 30⌋ % 12 := Int.emod_nonneg _ (by norm_num)
  have h2 : ⌊lon / 30⌋ % 12 < 12 := Int.emod_lt_of_pos _ (by norm_num)
  omega

theorem nakshatraIndex_lt (lon : ℚ) : nakshatraIndex lon < 27 := by
  rw [nakshatraIndex]
  have h1 : 0 ≤ ⌊lon / (360 / 27)⌋ % 27 := Int.emod_nonneg _ (by norm_num)
  have h2 : ⌊lon / (360 / 27)⌋ % 27 < 27 := Int.emod_lt_of_pos _ (by norm_num)
  omega

theorem zodiac_mem (lon : ℚ) : zodiac_from_longitude lon ∈ SIGNS :=
  getD_mem_of_lt _ _ _ (zodiacIndex_lt lon)

theorem nakshatra_mem (lon : ℚ) : nakshatra_from_longitude lon ∈ NAKSHATRAS :=
  getD_mem_of_lt _ _ _ (nakshatraIndex_lt lon)

theorem nakshatraIndex_eq_iff (lon : ℚ) (h1 : 0 ≤ lon) (h2 : lon < 360)
    (i : ℕ) (hi : i < 27) :
    nakshatraIndex lon = i ↔ (360 / 27 : ℚ) * i ≤ lon ∧ lon < (360 / 27) * (i + 1) := by
  have hc : (0 : ℚ) < 360 / 27 := by norm_num
  have hq0 : 0 ≤ lon / (360 / 27 : ℚ) := div_nonneg h1 (le_of_lt hc)
  have hq27 : lon / (360 / 27 : ℚ) < 27 := by
    rw [div_lt_iff hc]
    have h : (27 : ℚ) * (360 / 27) = 360 := by norm_num
    linarith
  have hf0 : 0 ≤ ⌊lon / (360 / 27 : ℚ)⌋ := Int.floor_nonneg.mpr hq0
  have hf27 : ⌊lon / (360 / 27 : ℚ)⌋ < 27 := Int.floor_lt.mpr (by push_cast; exact hq27)
  have hmod : ⌊lon / (360 / 27 : ℚ)⌋ % 27 = ⌊lon / (360 / 27 : ℚ)⌋ :=
    Int.emod_eq_of_lt hf0 hf27
  rw [nakshatraIndex, hmod]
  constructor
  · intro h
    have hfe : ⌊lon / (360 / 27 : ℚ)⌋ = (i : ℤ) := by omega
    obtain ⟨hl, hr⟩ := Int.floor_eq_iff.mp hfe
    push_cast at hl hr
    constructor
    · rw [le_div_iff hc] at hl
      linarith
    · rw [div_lt_iff hc] at hr
      linarith
  · rintro ⟨hl, hr⟩
    have hfe : ⌊lon / (360 / 27 : ℚ)⌋ = (i : ℤ) := by
      rw [Int.floor_eq_iff]
      constructor
      · push_cast
        rw [le_div_iff hc]
        linarith
      · push_cast
        rw [div_lt_iff hc]
        linarith
    omega

-- ---------------------------------------------------------------------------
-- Claim theorems
-- ---------------------------------------------------------------------------

/-- C1: for sun and moon longitudes in [0,360), the separation computed by the tithi
classifier equals the spec's double-modulo formula and is non-negative, the tithi
index lies in 0..29, the paksha is Shukla exactly when the index is below 15,
equivalently when the separation is below 180 degrees, and the returned label pair is
built from entry (index mod 15) of the fixed 15-entry tithi table, whose entry 0 is
Pratipada. -/
theorem tithi_c1 (sun_lon moon_lon : ℚ) (hs0 : 0 ≤ sun_lon) (hs1 : sun_lon < 360)
    (hm0 : 0 ≤ moon_lon) (hm1 : moon_lon < 360) :
    0 ≤ tithiDiff sun_lon moon_lon ∧
    tithiDiff sun_lon moon_lon = specSeparation sun_lon moon_lon ∧
    tithiNo sun_lon moon_lon ≤ 29 ∧
    (tithiNo sun_lon moon_lon < 15 ↔ tithiDiff sun_lon moon_lon < 180) ∧
    tithi_from_longitudes sun_lon moon_lon =
      ((if tithiNo sun_lon moon_lon < 15 then "शुक्ल" else "कृष्ण") ++ " " ++
         (TITHIS.getD (tithiNo sun_lon moon_lon % 15) ("", "")).1,
       (if tithiNo sun_lon moon_lon < 15 then "शुक्ल" else "कृष्ण") ++ " " ++
         (TITHIS.getD (tithiNo sun_lon moon_lon % 15) ("", "")).2) ∧
    tithiNo sun_lon moon_lon % 15 < TITHIS.length ∧
    TITHIS.length = 15 ∧
    TITHIS.getD 0 ("", "") = ("प्रतिपदा", "Pratipada") := by
  refine ⟨tithiDiff_nonneg _ _, tithiDiff_eq_specSeparation _ _, ?_,
    tithiNo_lt_15_iff _ _, rfl, Nat.mod_lt _ (by norm_num), rfl, rfl⟩
  have h := tithiNo_lt_30 sun_lon moon_lon
  omega

/-- C1 witness: at sun and moon longitude 0 the hypotheses hold and the statement is
realized concretely. -/
theorem tithi_c1_witness :
    (0 : ℚ) ≤ 0 ∧ (0 : ℚ) < 360 ∧
    (tithiNo 0 0 < 15 ↔ tithiDiff 0 0 < 180) ∧
    tithiDiff 0 0 = specSeparation 0 0 ∧
    TITHIS.getD 0 ("", "") = ("प्रतिपदा", "Pratipada") :=
  ⟨le_rfl, by norm_num,
   (tithi_c1 0 0 le_rfl (by norm_num) le_rfl (by norm_num)).2.2.2.1,
   (tithi_c1 0 0 le_rfl (by norm_num) le_rfl (by norm_num)).2.1,
   (tithi_c1 0 0 le_rfl (by norm_num) le_rfl (by norm_num)).2.2.2.2.2.2.2⟩

/-- C2: for a valid date string and a recognized timezone, the anchor instant is
midnight of the civil date plus exactly 6 hours in that timezone, converted to UTC
by the timezone's offset for that date, and the ephemeris time is formed from the
UTC calendar fields with fractional-hour input hour + minute/60 + second/3600; in
particular 2026-02-06 in Asia/Kolkata anchors at 06:00 +05:30, i.e. UTC 00:30. -/
theorem normalize_c2 (db : String → Option (Date → Int)) (date tz : String)
    (d : Date) (offsetFn : Date → Int)
    (hd : parseDate date = some d) (hdb : db tz = some offsetFn) :
    anchorAbsMin d offsetFn = specAnchorAbsMin d offsetFn ∧
    normalize d offsetFn =
      julday (anchorUTC d offsetFn).year (anchorUTC d offsetFn).month
        (anchorUTC d offsetFn).day
        (((anchorUTC d offsetFn).hour : ℚ) + ((anchorUTC d offsetFn).minute : ℚ) / 60 +
          ((anchorUTC d offsetFn).second : ℚ) / 3600) ∧
    parseDate "2026-02-06" = some ⟨2026, 2, 6⟩ ∧
    pytzDB "Asia/Kolkata" = some kolkataOffset ∧
    kolkataOffset ⟨2026, 2, 6⟩ = 330 ∧
    anchorUTC ⟨2026, 2, 6⟩ kolkataOffset = ⟨2026, 2, 6, 0, 30, 0⟩ ∧
    fracHour ⟨2026, 2, 6, 0, 30, 0⟩ = 1 / 2 := by
  refine ⟨?_, rfl, by decide, rfl, rfl, by decide, ?_⟩
  · rw [anchorAbsMin, specAnchorAbsMin]
    ring
  · rw [fracHour]
    norm_num

/-- C2 witness: the theorem applied to the concrete request date 2026-02-06 with
timezone Asia/Kolkata. -/
theorem normalize_c2_witness :
    anchorUTC ⟨2026, 2, 6⟩ kolkataOffset = ⟨2026, 2, 6, 0, 30, 0⟩ ∧
    fracHour ⟨2026, 2, 6, 0, 30, 0⟩ = 1 / 2 :=
  ⟨(normalize_c2 pytzDB "2026-02-06" "Asia/Kolkata" ⟨2026, 2, 6⟩ kolkataOffset
      (by decide) rfl).2.2.2.2.2.1,
   (normalize_c2 pytzDB "2026-02-06" "Asia/Kolkata" ⟨2026, 2, 6⟩ kolkataOffset
      (by decide) rfl).2.2.2.2.2.2⟩

/-- C3 (amended): the timezone lookup runs before date parsing, so an unrecognized
timezone yields UnknownTimeZone regardless of the date, while a malformed or
impossible date yields InvalidDateFormat whenever the timezone is recognized; in
particular 2026-02-30 with the recognized default timezone yields InvalidDateFormat
and Mars/Phobos yields UnknownTimeZone. -/
theorem astro_c3 (db : String → Option (Date → Int)) (eS eM : ℚ → ℚ)
    (date tz : String) (lat lon : ℚ) (offsetFn : Date → Int) :
    (db tz = none →
      astro db eS eM date tz lat lon = Except.error AstroError.UnknownTimeZone) ∧
    (db tz = some offsetFn → parseDate date = none →
      astro db eS eM date tz lat lon = Except.error AstroError.InvalidDateFormat) ∧
    parseDate "2026-02-30" = none ∧
    pytzDB "Mars/Phobos" = none ∧
    astro pytzDB eS eM "2026-02-30" "Asia/Kolkata" lat lon =
      Except.error AstroError.InvalidDateFormat ∧
    astro pytzDB eS eM "2026-02-06" "Mars/Phobos" lat lon =
      Except.error AstroError.UnknownTimeZone := by
  refine ⟨?_, ?_, by decide, rfl, rfl, rfl⟩
  · intro h
    unfold astro
    rw [h]
  · intro h1 h2
    unfold astro
    rw [h1, h2]

/-- C3 witness: the theorem applied at the two concrete invalid-input scenarios of
the claim, with each hypothesis discharged concretely. -/
theorem astro_c3_witness :
    astro pytzDB (fun _ => 0) (fun _ => 0) "2026-02-06" "Mars/Phobos" 1 2 =
      Except.error AstroError.UnknownTimeZone ∧
    astro pytzDB (fun _ => 0) (fun _ => 0) "2026-02-30" "Asia/Kolkata" 1 2 =
      Except.error AstroError.InvalidDateFormat :=
  ⟨(astro_c3 pytzDB (fun _ => 0) (fun _ => 0) "2026-02-06" "Mars/Phobos" 1 2
      kolkataOffset).1 rfl,
   (astro_c3 pytzDB (fun _ => 0) (fun _ => 0) "2026-02-30" "Asia/Kolkata" 1 2
      kolkataOffset).2.1 rfl (by decide)⟩

/-- C3 counterexample: with an impossible date and an unknown timezone together, the
request fails with UnknownTimeZone rather than InvalidDateFormat, because the
timezone lookup precedes date parsing; this refutes the claim's unconditional
"whenever the date string is invalid" clause. -/
theorem astro_c3_counterexample :
    parseDate "2026-02-30" = none ∧
    astro pytzDB (fun _ => 0) (fun _ => 0) "2026-02-30" "Mars/Phobos" 0 0 =
      Except.error AstroError.UnknownTimeZone ∧
    astro pytzDB (fun _ => 0) (fun _ => 0) "2026-02-30" "Mars/Phobos" 0 0 ≠
      Except.error AstroError.InvalidDateFormat :=
  ⟨by decide, rfl, by
    intro hc
    exact AstroError.noConfusion (Except.error.inj hc)⟩

/-- C4 (amended): for longitudes in [0,360) the zodiac classifier returns one of the
12 fixed signs, via index floor(lon/30) mod 12 with Aries at index 0, and it is
periodic with period 360 degrees: shifting by any whole number of full circles
before reduction leaves the sign unchanged. The spec's stated 30-degree-step
invariance is refuted by the counterexample theorem. -/
theorem zodiac_c4 (lon : ℚ) (k : ℤ) (h0 : 0 ≤ lon) (h1 : lon < 360) :
    zodiac_from_longitude lon ∈ SIGNS ∧
    SIGNS.length = 12 ∧
    zodiacIndex lon < 12 ∧
    zodiac_from_longitude lon = SIGNS.getD ((⌊lon / 30⌋ % 12).toNat) ("", "") ∧
    SIGNS.getD 0 ("", "") = ("मेष", "Aries") ∧
    zodiac_from_longitude (mod360 (lon + 360 * k)) = zodiac_from_longitude lon := by
  refine ⟨zodiac_mem lon, rfl, zodiacIndex_lt lon, rfl, rfl, ?_⟩
  rw [mod360_add_int_mul, mod360_eq_self h0 h1]

/-- C4 witness: the amended periodicity realized at longitude 0 with one full
360-degree turn. -/
theorem zodiac_c4_witness :
    (0 : ℚ) ≤ 0 ∧ (0 : ℚ) < 360 ∧
    zodiac_from_longitude (mod360 (0 + 360 * ((1 : ℤ) : ℚ))) = zodiac_from_longitude 0 ∧
    zodiac_from_longitude 0 ∈ SIGNS :=
  ⟨le_rfl, by norm_num,
   (zodiac_c4 0 1 le_rfl (by norm_num)).2.2.2.2.2,
   (zodiac_c4 0 1 le_rfl (by norm_num)).1⟩

/-- C4 counterexample: the claim's invariance under a 30-degree step fails at
longitude 0 with k = 1: the sign moves from Aries to Taurus. -/
theorem zodiac_c4_counterexample :
    (0 : ℚ) ≤ 0 ∧ (0 : ℚ) < 360 ∧
    mod360 (0 + 30 * ((1 : ℤ) : ℚ)) = 30 ∧
    zodiac_from_longitude 0 = ("मेष", "Aries") ∧
    zodiac_from_longitude 30 = ("वृषभ", "Taurus") ∧
    zodiac_from_longitude (mod360 (0 + 30 * ((1 : ℤ) : ℚ))) ≠ zodiac_from_longitude 0 := by
  have h30 : mod360 (0 + 30 * ((1 : ℤ) : ℚ)) = 30 := by
    have h : (0 : ℚ) + 30 * ((1 : ℤ) : ℚ) = 30 := by
      push_cast
      ring
    rw [h]
    exact mod360_eq_self (by norm_num) (by norm_num)
  have hz0 : zodiacIndex (0 : ℚ) = 0 := by
    have hf : ⌊(0 : ℚ) / 30⌋ = 0 := by norm_num
    rw [zodiacIndex, hf]
    decide
  have hz30 : zodiacIndex (30 : ℚ) = 1 := by
    have hf : ⌊(30 : ℚ) / 30⌋ = 1 := by norm_num
    rw [zodiacIndex, hf]
    decide
  have e0 : zodiac_from_longitude 0 = ("मेष", "Aries") := by
    rw [zodiac_from_longitude, hz0]
    decide
  have e30 : zodiac_from_longitude 30 = ("वृषभ", "Taurus") := by
    rw [zodiac_from_longitude, hz30]
    decide
  refine ⟨le_rfl, by norm_num, h30, e0, e30, ?_⟩
  rw [h30, e0, e30]
  decide

/-- C5 (amended): the tithi classifier returns a pair of labels sharing the same
local-script paksha; the first label's base name is the local-script column and the
second label's base name is the transliteration column of the tithi table. The
paksha of the second label is not transliterated; only its base name is
(counterexample theorem). -/
theorem tithi_c5 (s m : ℚ) :
    (tithi_from_longitudes s m).1 =
      (if tithiNo s m < 15 then "शुक्ल" else "कृष्ण") ++ " " ++
        (TITHIS.getD (tithiNo s m % 15) ("", "")).1 ∧
    (tithi_from_longitudes s m).2 =
      (if tithiNo s m < 15 then "शुक्ल" else "कृष्ण") ++ " " ++
        (TITHIS.getD (tithiNo s m % 15) ("", "")).2 ∧
    TITHIS.getD (tithiNo s m % 15) ("", "") ∈ TITHIS :=
  ⟨rfl, rfl, getD_mem_of_lt _ _ _ (Nat.mod_lt _ (by norm_num))⟩

/-- C5 counterexample: at separation 0 the second (transliterated) label is
"शुक्ल Pratipada" — its paksha is the local-script string, not the transliteration
"Shukla" the spec describes. -/
theorem tithi_c5_counterexample :
    (tithi_from_longitudes 0 0).2 = "शुक्ल Pratipada" ∧
    specTithiTranslit 0 0 = "Shukla Pratipada" ∧
    (tithi_from_longitudes 0 0).2 ≠ specTithiTranslit 0 0 := by
  have htn : tithiNo (0 : ℚ) 0 = 0 := tithiNo_self 0
  have h1 : (tithi_from_longitudes 0 0).2 = "शुक्ल Pratipada" := by
    simp only [tithi_from_longitudes, htn]
    decide
  have h2 : specTithiTranslit 0 0 = "Shukla Pratipada" := by
    simp only [specTithiTranslit, htn]
    decide
  refine ⟨h1, h2, ?_⟩
  rw [h1, h2]
  decide

/-- C6: for a longitude in [0,360) the nakshatra classifier returns one of the 27
fixed nakshatras, selecting index floor(lon / (360/27)) mod 27 from the 27-entry
cycle starting at Ashwini, and the selected index is i exactly on the sector between
i×360/27 inclusive and (i+1)×360/27 exclusive, so the category changes exactly at
multiples of 360/27 degrees. -/
theorem nakshatra_c6 (lon : ℚ) (h0 : 0 ≤ lon) (h1 : lon < 360) :
    nakshatra_from_longitude lon ∈ NAKSHATRAS ∧
    NAKSHATRAS.length = 27 ∧
    nakshatraIndex lon < 27 ∧
    nakshatra_from_longitude lon =
      NAKSHATRAS.getD ((⌊lon / (360 / 27)⌋ % 27).toNat) ("", "") ∧
    NAKSHATRAS.getD 0 ("", "") = ("अश्विनी", "Ashwini") ∧
    ∀ i : ℕ, i < 27 →
      (nakshatraIndex lon = i ↔ (360 / 27 : ℚ) * i ≤ lon ∧ lon < (360 / 27) * (i + 1)) :=
  ⟨nakshatra_mem lon, rfl, nakshatraIndex_lt lon, rfl, rfl,
   fun i hi => nakshatraIndex_eq_iff lon h0 h1 i hi⟩

/-- C6 witness: at longitude 20 the sector test puts the Moon in the second
nakshatra (index 1, Bharani), and the classifier output is one of the 27 entries. -/
theorem nakshatra_c6_witness :
    nakshatraIndex 20 = 1 ∧ nakshatra_from_longitude 20 ∈ NAKSHATRAS :=
  ⟨((nakshatra_c6 20 (by norm_num) (by norm_num)).2.2.2.2.2 1 (by norm_num)).mpr
     (by constructor <;> norm_num),
   (nakshatra_c6 20 (by norm_num) (by norm_num)).1⟩

/-- C7: the tithi classifier is invariant under adding 360 degrees to either input
before reduction; at separation 0 it yields Shukla Pratipada (index 0), at
separation 179.999 it yields the last Shukla tithi Purnima (index 14), and at
separation exactly 180 it yields the first Krishna tithi Pratipada (index 15). -/
theorem tithi_c7 (x s m : ℚ) :
    tithi_from_longitudes (s + 360) m = tithi_from_longitudes s m ∧
    tithi_from_longitudes s (m + 360) = tithi_from_longitudes s m ∧
    tithiNo x x = 0 ∧
    tithi_from_longitudes x x = ("शुक्ल प्रतिपदा", "शुक्ल Pratipada") ∧
    tithiNo x (x + 179999 / 1000) = 14 ∧
    tithi_from_longitudes x (x + 179999 / 1000) = ("शुक्ल पूर्णिमा", "शुक्ल Purnima") ∧
    TITHIS.getD (14 % 15) ("", "") = ("पूर्णिमा", "Purnima") ∧
    tithiNo x (x + 180) = 15 ∧
    ¬ tithiNo x (x + 180) < 15 ∧
    tithi_from_longitudes x (x + 180) = ("कृष्ण प्रतिपदा", "कृष्ण Pratipada") ∧
    TITHIS.getD (15 % 15) ("", "") = ("प्रतिपदा", "Pratipada") := by
  have hd14 : tithiDiff x (x + 179999 / 1000) = 179999 / 1000 :=
    tithiDiff_add_of x (by norm_num) (by norm_num)
  have hd15 : tithiDiff x (x + 180) = 180 :=
    tithiDiff_add_of x (by norm_num) (by norm_num)
  have hf14 : ⌊(179999 : ℚ) / 1000 / 12⌋ = 14 := by
    norm_num [Int.floor_eq_iff]
  have hf15 : ⌊(180 : ℚ) / 12⌋ = 15 := by
    norm_num [Int.floor_eq_iff]
  have htn0 : tithiNo x x = 0 := tithiNo_self x
  have htn14 : tithiNo x (x + 179999 / 1000) = 14 := by
    rw [tithiNo, hd14, hf14]
    decide
  have htn15 : tithiNo x (x + 180) = 15 := by
    rw [tithiNo, hd15, hf15]
    decide
  refine ⟨tithi_congr (tithiDiff_sun_shift s m), tithi_congr (tithiDiff_moon_shift s m),
    htn0, ?_, htn14, ?_, by decide, htn15, by omega, ?_, by decide⟩
  · simp only [tithi_from_longitudes, htn0]
    decide
  · simp only [tithi_from_longitudes, htn14]
    decide
  · simp only [tithi_from_longitudes, htn15]
    decide

/-- C8: two /astro requests that differ only in their lat and lon query parameters
produce identical responses: the handler accepts latitude and longitude but never
reads them. -/
theorem astro_c8 (db : String → Option (Date → Int)) (eS eM : ℚ → ℚ)
    (date tz : String) (lat1 lon1 lat2 lon2 : ℚ) :
    astro db eS eM date tz lat1 lon1 = astro db eS eM date tz lat2 lon2 := rfl

/-- C9: the classifiers floor toward negative infinity and reduce with a
non-negative modulus, so for every rational longitude input — negative or at or
above 360 included — the computed table indices stay within 0..11, 0..26 and 0..29
and a label from the table is returned; a wraparound separation of exactly 360
reduces to tithi index 0, and longitude -1 lands in the last sign Pisces rather
than overflowing or truncating toward Aries. -/
theorem classifier_c9 (lon s m : ℚ) :
    zodiacIndex lon < 12 ∧
    nakshatraIndex lon < 27 ∧
    tithiNo s m < 30 ∧
    zodiac_from_longitude lon ∈ SIGNS ∧
    nakshatra_from_longitude lon ∈ NAKSHATRAS ∧
    (0 : ℚ) ≤ tithiDiff s m ∧
    tithiDiff s m < 360 ∧
    tithiDiff 0 360 = 0 ∧
    tithiNo 0 360 = 0 ∧
    zodiacIndex (-1) = 11 ∧
    zodiac_from_longitude (-1) = ("मीन", "Pisces") := by
  have hd : tithiDiff 0 360 = 0 := by
    rw [tithiDiff]
    have h : (360 : ℚ) - 0 = 0 + 360 * ((1 : ℤ) : ℚ) := by
      push_cast
      ring
    rw [h, mod360_add_int_mul]
    exact mod360_eq_self le_rfl (by norm_num)
  have hz : zodiacIndex (-1 : ℚ) = 11 := by
    have hf : ⌊(-1 : ℚ) / 30⌋ = -1 := by
      rw [Int.floor_eq_iff]
      constructor
      · push_cast
        norm_num
      · push_cast
        norm_num
    rw [zodiacIndex, hf]
    decide
  refine ⟨zodiacIndex_lt lon, nakshatraIndex_lt lon, tithiNo_lt_30 s m, zodiac_mem lon,
    nakshatra_mem lon, tithiDiff_nonneg s m, tithiDiff_lt_360 s m, hd, ?_, hz, ?_⟩
  · rw [tithiNo, hd]
    norm_num
  · rw [zodiac_from_longitude, hz]
    decide

/-- C10: on every successful request the response echoes the date and tz query
parameters back unchanged in its top-level date and timezone fields. -/
theorem astro_c10 (db : String → Option (Date → Int)) (eS eM : ℚ → ℚ)
    (date tz : String) (lat lon : ℚ) (r : Response)
    (h : astro db eS eM date tz lat lon = Except.ok r) :
    r.date = date ∧ r.timezone = tz := by
  unfold astro at h
  split at h
  · exact Except.noConfusion h
  · split at h
    · exact Except.noConfusion h
    · have h2 := Except.ok.inj h
      exact ⟨by rw [← h2], by rw [← h2]⟩

/-- C10 witness: a concrete successful request for 2026-02-06 in Asia/Kolkata with a
stub ephemeris echoes both fields. -/
theorem astro_c10_witness :
    sampleResponse.date = "2026-02-06" ∧ sampleResponse.timezone = "Asia/Kolkata" :=
  astro_c10 pytzDB (fun _ => 10) (fun _ => 50) "2026-02-06" "Asia/Kolkata" 0 0
    sampleResponse rfl

end AstroApi
